import Mathlib

/-!
Verification of the GDG-Team-Qubit auto-grading backend.

The development shallowly embeds the Python sources:
  * `model.py` — the grading heuristic (`GradingModel`): text normalisation,
    word-count thresholding, sentiment-to-grade mapping, feedback selection,
    and the simulated training stub;
  * `classroom_integration.py` — the `ClassroomService` wrapper whose methods
    convert remote-API failures into fail-soft return values;
  * `main.py` — the Flask route handlers, modelled as pure functions that
    also return the ordered list of side effects they perform;
  * `firebase_utils.py` — the progress-update helper.

Strings are modelled as `List Char` of code points, Python floats as `ℚ`
(the heuristic only performs exact arithmetic on small rationals), and each
external service call as an explicit outcome parameter: `some`/`ok` for a
successful call and `none`/an error constructor for a raised exception.
-/

namespace Qubit

/-- The set of characters matched by Python's `\s` in `re.sub(r'\s+', ' ', …)`
and stripped by `str.strip()`: ASCII whitespace, the information separators,
NEL, NBSP and the Unicode space separators. -/
def isPySpace (c : Char) : Bool :=
  (9 ≤ c.toNat && c.toNat ≤ 13) || (28 ≤ c.toNat && c.toNat ≤ 31) ||
  c.toNat == 32 || c.toNat == 133 || c.toNat == 160 || c.toNat == 5760 ||
  (8192 ≤ c.toNat && c.toNat ≤ 8202) || c.toNat == 8232 || c.toNat == 8233 ||
  c.toNat == 8239 || c.toNat == 8287 || c.toNat == 12288

/-- ASCII lower-casing of one character, the effect of Python's `str.lower()`
on the code points the grading pipeline can keep (every character of the
inputs considered is either ASCII or fixed by `lower`). -/
def pyLower (c : Char) : Char :=
  if 65 ≤ c.toNat ∧ c.toNat ≤ 90 then Char.ofNat (c.toNat + 32) else c

/-- ASCII upper-casing of one character, the effect of Python's `str.upper()`
on the classifier labels (`"POSITIVE"` / `"NEGATIVE"` and case variants). -/
def pyUpper (c : Char) : Char :=
  if 97 ≤ c.toNat ∧ c.toNat ≤ 122 then Char.ofNat (c.toNat - 32) else c

/-- One pass of `re.sub(r'\s+', ' ', text)`: every maximal run of whitespace
becomes a single `' '`.  The flag records whether the previous character
belonged to a whitespace run. -/
def collapseAux : Bool → List Char → List Char
  | _, [] => []
  | prev, c :: rest =>
    if isPySpace c then
      if prev then collapseAux true rest else ' ' :: collapseAux true rest
    else c :: collapseAux false rest

/-- Embeds `re.sub(r'\s+', ' ', text)` (model.py, line 29). -/
def collapseWS (l : List Char) : List Char := collapseAux false l

/-- Python `str.strip()`: remove leading and trailing whitespace. -/
def stripWS (l : List Char) : List Char :=
  ((l.dropWhile isPySpace).reverse.dropWhile isPySpace).reverse

/-- Embeds `text.encode('ascii', errors='ignore').decode('ascii')`: keep only the
code points below 128. -/
def asciiFilter (l : List Char) : List Char :=
  l.filter (fun c => c.toNat ≤ 127)

/-- Embeds `GradingModel.clean_text` (model.py, lines 24–31): lowercase, collapse
whitespace and strip, then drop non-ASCII characters — in that order. -/
def clean_text (text : List Char) : List Char :=
  asciiFilter (stripWS (collapseWS (text.map pyLower)))

/-- Embeds `GradingModel.preprocess_text` (model.py, lines 33–37). -/
def preprocess_text (text : List Char) : List Char := clean_text text

/-- Python `str.split()` with no separator: split on whitespace runs and
drop empty pieces.  The accumulator holds the current word reversed. -/
def splitWordsAux : List Char → List Char → List (List Char)
  | [], acc => if acc.isEmpty then [] else [acc.reverse]
  | c :: rest, acc =>
    if isPySpace c then
      if acc.isEmpty then splitWordsAux rest []
      else acc.reverse :: splitWordsAux rest []
    else splitWordsAux rest (c :: acc)

/-- Embeds `processed_text.split()` in `predict_grade`. -/
def splitWords (l : List Char) : List (List Char) := splitWordsAux l []

/-- The constructor parameters of `GradingModel` (model.py, lines 11–20).
The sentiment pipeline itself is external; it is passed to `predict_grade`
as an explicit `Classifier` argument. -/
structure GradingModel where
  max_chars : ℕ
  min_words : ℕ
  full_mark_word_count : ℕ
deriving Repr, DecidableEq

/-- The default constructor arguments (`max_chars=512, min_words=20,
full_mark_word_count=500`), also the parameters of the global
`grading_model` instance (model.py, line 91). -/
def defaultModel : GradingModel :=
  { max_chars := 512, min_words := 20, full_mark_word_count := 500 }

/-- The external sentiment pipeline: on a (truncated) text it either raises
(`none`) or returns a `(label, confidence)` pair (`some`). -/
def Classifier : Type := List Char → Option (List Char × ℚ)

/-- Embeds `GradingModel._map_sentiment_to_grade` (model.py, lines 39–48). -/
def map_sentiment_to_grade (label : List Char) (sentiment_score : ℚ) : ℚ :=
  if label.map pyUpper = "POSITIVE".toList then sentiment_score * 100
  else (1 - sentiment_score) * 50

/-- The word-count component `min(100, (len(words) / full_mark_word_count)
* 100)` appearing on both line 65 and line 69 of model.py. -/
def wordGrade (m : GradingModel) (numWords : ℕ) : ℚ :=
  min 100 ((numWords : ℚ) / (m.full_mark_word_count : ℚ) * 100)

/-- Embeds `GradingModel.predict_grade` (model.py, lines 50–70).  The `try` block
covers exactly the classifier invocation: a raising classifier (`none`)
takes the fallback branch. -/
def predict_grade (m : GradingModel) (cl : Classifier)
    (assignment_text : List Char) : ℚ :=
  let processed_text := preprocess_text assignment_text
  let words := splitWords processed_text
  if words.length < m.min_words then 0
  else
    let truncated_text := processed_text.take m.max_chars
    match cl truncated_text with
    | some (label, sentiment_score) =>
      let grade_from_sentiment := map_sentiment_to_grade label sentiment_score
      let word_based_grade := wordGrade m words.length
      (grade_from_sentiment + word_based_grade) / 2
    | none => wordGrade m words.length

/-- Embeds `GradingModel.generate_feedback` (model.py, lines 72–81). -/
def GradingModel.generate_feedback (grade : ℚ) : String :=
  if grade ≥ 80 then
    "Excellent work! Your essay is well-structured and insightful."
  else if grade ≥ 50 then
    "Good job. Consider adding more examples and details to support your ideas."
  else
    "Your work needs improvement. Focus on developing your arguments more clearly."

/-- A teacher-provided `{text, score}` training example. -/
structure TrainingExample where
  text : String
  score : ℚ
deriving Repr, DecidableEq

/-- The dict returned by `train_on_examples`. -/
structure TrainResult where
  epochs : ℕ
  status : String
deriving Repr, DecidableEq

/-- Embeds `GradingModel.train_on_examples` (model.py, lines 83–88): a simulated
no-op.  The method reads no attribute and assigns none; state passing makes
that explicit by returning the model unchanged. -/
def GradingModel.train_on_examples (m : GradingModel)
    (_examples : List TrainingExample) (epochs : ℕ) : TrainResult × GradingModel :=
  ({ epochs := epochs, status := "Training simulated; no changes applied." }, m)

/-- Embeds `predict_score` (model.py, lines 93–94), delegating to the global
default-parameter instance. -/
def predict_score (cl : Classifier) (assignment_text : List Char) : ℚ :=
  predict_grade defaultModel cl assignment_text

/-- Module-level `generate_feedback(grade, text)` (model.py, lines 96–97):
the `text` argument is accepted and discarded. -/
def generate_feedback (grade : ℚ) (_text : List Char) : String :=
  GradingModel.generate_feedback grade

/-- Module-level `train_on_examples` (model.py, lines 99–100). -/
def train_on_examples (examples : List TrainingExample) (epochs : ℕ) :
    TrainResult × GradingModel :=
  defaultModel.train_on_examples examples epochs

/-- Executes a list of `train_on_examples` calls threaded through the model
state, to state that no call influences later predictions. -/
def runTrainingCalls (m : GradingModel)
    (calls : List (List TrainingExample × ℕ)) : GradingModel :=
  calls.foldl (fun st c => (st.train_on_examples c.1 c.2).2) m

/-- Validity flag consumed by `spacedOK`: scans a string left to right and
checks that every whitespace character is a plain `' '` and that no
whitespace character follows another (the flag says whether the previous
character was whitespace).  This is the invariant `collapseWS` establishes. -/
def spacedOK : Bool → List Char → Bool
  | _, [] => true
  | afterSpace, c :: rest =>
    if isPySpace c then !afterSpace && (c == ' ') && spacedOK true rest
    else spacedOK false rest

/-- Python substring test `needle in hay` on code-point lists. -/
def strContainsAux (needle : List Char) : List Char → Bool
  | [] => needle.isEmpty
  | c :: rest => needle.isPrefixOf (c :: rest) || strContainsAux needle rest

/-- Python substring test `needle in hay` on strings, as used by
`"ProjectPermissionDenied" in str(err)` (classroom_integration.py, line 113). -/
def strContains (hay needle : String) : Bool :=
  strContainsAux needle.toList hay.toList

/-! ### classroom_integration.py

Each `ClassroomService` method wraps one remote call in `try/except`.  The
remote call is external, so its outcome is an explicit argument: `ok` with
the parsed response, `httpError` with the text of a raised
`googleapiclient.errors.HttpError`, or `failure` with the text of any other
exception.  A method returns either the extracted payload or a fail-soft
value; no constructor of the return types models a propagated exception. -/

/-- Outcome of one `….execute()` call against the remote classroom API. -/
inductive ApiOutcome (α : Type) where
  | ok : α → ApiOutcome α
  | httpError : String → ApiOutcome α
  | failure : String → ApiOutcome α
deriving DecidableEq

/-- Return shape of `list_courses`, `fetch_assignments` and
`get_student_submissions`: the parsed collection, or the error string built
in the `except` branches. -/
inductive ServiceReturn (α : Type) where
  | payload : α → ServiceReturn α
  | message : String → ServiceReturn α
deriving DecidableEq

/-- Return shape of `post_grade`: additionally the hard-coded simulated
success dict `{"simulated": True, "grade": grade, "submission_id": sid}`. -/
inductive PostReturn (α : Type) where
  | payload : α → PostReturn α
  | message : String → PostReturn α
  | simulated : ℚ → Option String → PostReturn α
deriving DecidableEq

/-- Embeds `ClassroomService.list_courses` (classroom_integration.py, lines
54–65).  The response dict is modelled by its optional `courses` key. -/
def ClassroomService.list_courses {α : Type}
    (o : ApiOutcome (Option (List α))) : ServiceReturn (List α) :=
  match o with
  | .ok response => .payload (response.getD [])
  | .httpError err => .message ("Error listing courses: " ++ err)
  | .failure e => .message ("Error listing courses: " ++ e)

/-- Embeds `ClassroomService.fetch_assignments` (classroom_integration.py,
lines 67–78). -/
def ClassroomService.fetch_assignments {α : Type} (_course_id : String)
    (o : ApiOutcome (Option (List α))) : ServiceReturn (List α) :=
  match o with
  | .ok coursework => .payload (coursework.getD [])
  | .httpError err => .message ("Error fetching assignments: " ++ err)
  | .failure e => .message ("Error fetching assignments: " ++ e)

/-- Embeds `ClassroomService.get_student_submissions`
(classroom_integration.py, lines 80–95). -/
def ClassroomService.get_student_submissions {α : Type} (_course_id : String)
    (_coursework_id : Option String)
    (o : ApiOutcome (Option (List α))) : ServiceReturn (List α) :=
  match o with
  | .ok response => .payload (response.getD [])
  | .httpError err => .message ("Error fetching student submissions: " ++ err)
  | .failure e => .message ("Error fetching student submissions: " ++ e)

/-- Embeds `ClassroomService.post_grade` (classroom_integration.py, lines
97–120): on an `HttpError` whose text contains `"ProjectPermissionDenied"`
the failure is masked by the simulated-success dict. -/
def ClassroomService.post_grade {α : Type} (_course_id : String)
    (_coursework_id : Option String) (student_submission_id : Option String)
    (grade : ℚ) (o : ApiOutcome α) : PostReturn α :=
  match o with
  | .ok result => .payload result
  | .httpError err =>
    if strContains err "ProjectPermissionDenied" then
      .simulated grade student_submission_id
    else .message ("Error posting grade: " ++ err)
  | .failure e => .message ("Error posting grade: " ++ e)

/-! ### firebase_utils.py and main.py

The route handlers are modelled as pure functions that, besides the HTTP
response, return the ordered list of externally visible effects they
perform (remote classroom calls, file saves, database writes).  Remote
responses, PDF extraction and `werkzeug.secure_filename` are external and
enter as explicit arguments. -/

/-- Embeds `update_student_progress` (firebase_utils.py, lines 15–24); the
argument is the exception text of a failing `ref.update`, if any. -/
def update_student_progress (_student_id : String) (o : Option String) : String :=
  match o with
  | none => "Progress updated successfully."
  | some e => "Failed to update progress: " ++ e

/-- Truthiness of `request.args.get(…)` / `request.form.get(…)` results:
Python treats a missing key (`None`) and the empty string as false. -/
def pyTruthy : Option String → Bool
  | none => false
  | some s => !(s == "")

/-- Externally visible side effects of a route handler, in program order. -/
inductive Event where
  | remoteCall : String → Event
  | fileSave : String → Event
  | dbWrite : String → Event
deriving DecidableEq

/-- Coursework dict as read by the handlers: only the keys `id`, `title`
and `description` are accessed, each possibly absent. -/
structure Coursework where
  id : Option String
  title : Option String
  description : Option String
deriving DecidableEq

/-- StudentSubmission dict as read by `grade_all`: only `id` is accessed. -/
structure Submission where
  id : Option String
deriving DecidableEq

/-- Row rendered by `/fetch-assignments` for one assignment. -/
structure GradedPreview where
  course_id : String
  coursework_id : Option String
  title : String
  grade : ℚ
  feedback : String
deriving DecidableEq

/-- Response of the `/fetch-assignments` route. -/
inductive FetchResp where
  | badRequest : String → FetchResp
  | page : List GradedPreview → FetchResp
  | errorJson : String → FetchResp
deriving DecidableEq

/-- Embeds `fetch_and_grade` (main.py, lines 51–75).  The missing-parameter
check precedes the construction of `ClassroomService` and its remote call,
so the 400 branch carries an empty event list. -/
def fetch_and_grade (course_id : Option String) (cl : Classifier)
    (fetchOutcome : ApiOutcome (Option (List Coursework))) :
    List Event × FetchResp :=
  if !(pyTruthy course_id) then
    ([], .badRequest "course_id query parameter is required")
  else
    let cid := course_id.getD ""
    match ClassroomService.fetch_assignments cid fetchOutcome with
    | .payload assignments =>
      ([Event.remoteCall "fetch_assignments"],
        .page (assignments.map (fun a =>
          let description := (a.description.getD "").toList
          let grade := predict_score cl description
          { course_id := cid, coursework_id := a.id,
            title := a.title.getD "Untitled", grade := grade,
            feedback := generate_feedback grade description })))
    | .message msg => ([Event.remoteCall "fetch_assignments"], .errorJson msg)

/-- Entry of the `/grade-all` results page: either a posted grade with the
value `post_grade` returned, or the error dict recorded when the
submission listing failed. -/
inductive GradeAllEntry (α : Type) where
  | graded : Option String → String → Option String → ℚ → PostReturn α →
      GradeAllEntry α
  | failed : Option String → String → String → GradeAllEntry α
deriving DecidableEq

/-- Response of the `/grade-all` route. -/
inductive GradeAllResp (α : Type) where
  | badRequest : String → GradeAllResp α
  | errorJson : String → GradeAllResp α
  | page : List (GradeAllEntry α) → GradeAllResp α
deriving DecidableEq

/-- Work done by `grade_all` for one assignment: its events and its
`graded_results` entries. -/
def gradeAllStep {α : Type} (cid : String) (cl : Classifier)
    (subsOutcome : Option String → ApiOutcome (Option (List Submission)))
    (postOutcome : Option String → Option String → ApiOutcome α)
    (a : Coursework) : List Event × List (GradeAllEntry α) :=
  let coursework_id := a.id
  let title := a.title.getD "Untitled"
  let grade := predict_score cl (a.description.getD "").toList
  match ClassroomService.get_student_submissions cid coursework_id
      (subsOutcome coursework_id) with
  | .payload submissions =>
    (Event.remoteCall "get_student_submissions" ::
       submissions.map (fun _ => Event.remoteCall "post_grade"),
     submissions.map (fun s =>
       GradeAllEntry.graded coursework_id title s.id grade
         (ClassroomService.post_grade cid coursework_id s.id grade
           (postOutcome coursework_id s.id))))
  | .message msg =>
    ([Event.remoteCall "get_student_submissions"],
     [GradeAllEntry.failed coursework_id title msg])

/-- Embeds `grade_all` (main.py, lines 80–112).  As in the source, the
`course_id` check comes first, then the assignment listing, then one
submission listing per assignment and one grade post per submission. -/
def grade_all {α : Type} (course_id : Option String) (cl : Classifier)
    (fetchOutcome : ApiOutcome (Option (List Coursework)))
    (subsOutcome : Option String → ApiOutcome (Option (List Submission)))
    (postOutcome : Option String → Option String → ApiOutcome α) :
    List Event × GradeAllResp α :=
  if !(pyTruthy course_id) then ([], .badRequest "course_id is required")
  else
    let cid := course_id.getD ""
    match ClassroomService.fetch_assignments cid fetchOutcome with
    | .message msg => ([Event.remoteCall "fetch_assignments"], .errorJson msg)
    | .payload assignments =>
      let steps := assignments.map (gradeAllStep cid cl subsOutcome postOutcome)
      (Event.remoteCall "fetch_assignments" :: (steps.map Prod.fst).flatten,
       .page (steps.map Prod.snd).flatten)

/-- An entry of `request.files`: the uploaded file with its (possibly
empty) client-supplied name and its bytes. -/
structure FileUpload where
  filename : String
  content : String
deriving DecidableEq

/-- Request data read by `/upload-assignment`: the optional
`assignment_file` part and the optional `student_id` form field. -/
structure UploadRequest where
  assignment_file : Option FileUpload
  student_id : Option String
deriving DecidableEq

/-- Response of the `/upload-assignment` route: an error with its HTTP
status, or the JSON with grade, feedback and the firebase message. -/
inductive UploadResp where
  | err : ℕ → String → UploadResp
  | graded : ℚ → String → String → UploadResp
deriving DecidableEq

/-- Embeds `upload_assignment` (main.py, lines 137–165).  `secure` stands
for `werkzeug.utils.secure_filename` and `extract` for
`extract_text_from_pdf`, both external; `dbOutcome` is the outcome of the
firebase update.  The source saves the file (a persistent effect) before
it checks `student_id`, which the event list makes visible. -/
def upload_assignment (req : UploadRequest) (secure : String → String)
    (extract : String → String) (cl : Classifier) (dbOutcome : Option String) :
    List Event × UploadResp :=
  match req.assignment_file with
  | none => ([], .err 400 "No file part in the request")
  | some file =>
    if file.filename == "" then ([], .err 400 "No selected file")
    else
      let filepath := "uploads/" ++ secure file.filename
      let assignment_text := (extract file.content).toList
      if !(pyTruthy req.student_id) then
        ([Event.fileSave filepath], .err 400 "student_id is required")
      else
        let sid := req.student_id.getD ""
        let grade := predict_score cl assignment_text
        let feedback := generate_feedback grade assignment_text
        ([Event.fileSave filepath, Event.dbWrite sid],
          .graded grade feedback (update_student_progress sid dbOutcome))

/-- A 20-word text, witness input for the minimum-length threshold. -/
def words20 : List Char := (List.replicate 20 ('a' :: [' '])).flatten

/-- A 500-word text, witness input for word-count saturation. -/
def words500 : List Char := (List.replicate 500 ('a' :: [' '])).flatten

theorem charToNat_ofNat (n : ℕ) (h : n < 55296) : (Char.ofNat n).toNat = n := by
  have hv : n.isValidChar := Or.inl h
  simp only [Char.ofNat, dif_pos hv, Char.ofNatAux, Char.toNat]
  simp only [UInt32.toNat]
  simp

theorem toNat_pyLower (c : Char) :
    (pyLower c).toNat =
      if 65 ≤ c.toNat ∧ c.toNat ≤ 90 then c.toNat + 32 else c.toNat := by
  by_cases h : 65 ≤ c.toNat ∧ c.toNat ≤ 90
  · simp only [pyLower, if_pos h]
    exact charToNat_ofNat _ (by omega)
  · simp only [pyLower, if_neg h]

theorem map_sentiment_range (label : List Char) (s : ℚ) (h0 : 0 ≤ s) (h1 : s ≤ 1) :
    0 ≤ map_sentiment_to_grade label s ∧ map_sentiment_to_grade label s ≤ 100 := by
  unfold map_sentiment_to_grade
  split
  · constructor <;> nlinarith
  · constructor <;> nlinarith

theorem wordGrade_nonneg (m : GradingModel) (n : ℕ) : 0 ≤ wordGrade m n :=
  le_min (by norm_num) (by positivity)

theorem wordGrade_le_100 (m : GradingModel) (n : ℕ) : wordGrade m n ≤ 100 :=
  min_le_left _ _

theorem predict_grade_short (m : GradingModel) (cl : Classifier) (t : List Char)
    (h : (splitWords (clean_text t)).length < m.min_words) :
    predict_grade m cl t = 0 := by
  simp only [predict_grade, preprocess_text]
  rw [if_pos h]

theorem predict_grade_fallback (m : GradingModel) (cl : Classifier) (t : List Char)
    (h1 : ¬ (splitWords (clean_text t)).length < m.min_words)
    (h2 : cl ((clean_text t).take m.max_chars) = none) :
    predict_grade m cl t = wordGrade m (splitWords (clean_text t)).length := by
  simp only [predict_grade, preprocess_text]
  rw [if_neg h1, h2]

theorem predict_grade_sentiment (m : GradingModel) (cl : Classifier) (t : List Char)
    (label : List Char) (s : ℚ)
    (h1 : ¬ (splitWords (clean_text t)).length < m.min_words)
    (h2 : cl ((clean_text t).take m.max_chars) = some (label, s)) :
    predict_grade m cl t =
      (map_sentiment_to_grade label s +
        wordGrade m (splitWords (clean_text t)).length) / 2 := by
  simp only [predict_grade, preprocess_text]
  rw [if_neg h1, h2]

/-- C1: whenever the classifier fails or returns a confidence in [0,1],
`predict_grade` returns a grade in [0,100]; and when the word-count gate
passes and the classifier succeeds, the result is the arithmetic mean of
the sentiment component and the word-count component, each in [0,100]. -/
theorem predict_grade_in_range (cl : Classifier) (t : List Char)
    (hcl : ∀ label s, cl ((clean_text t).take defaultModel.max_chars) = some (label, s) →
      0 ≤ s ∧ s ≤ 1) :
    (0 ≤ predict_grade defaultModel cl t ∧ predict_grade defaultModel cl t ≤ 100) ∧
    (∀ label s, defaultModel.min_words ≤ (splitWords (clean_text t)).length →
      cl ((clean_text t).take defaultModel.max_chars) = some (label, s) →
      predict_grade defaultModel cl t =
        (map_sentiment_to_grade label s +
          wordGrade defaultModel (splitWords (clean_text t)).length) / 2 ∧
      (0 ≤ map_sentiment_to_grade label s ∧ map_sentiment_to_grade label s ≤ 100) ∧
      (0 ≤ wordGrade defaultModel (splitWords (clean_text t)).length ∧
        wordGrade defaultModel (splitWords (clean_text t)).length ≤ 100)) := by
  constructor
  · by_cases h1 : (splitWords (clean_text t)).length < defaultModel.min_words
    · rw [predict_grade_short _ _ _ h1]
      norm_num
    · cases h2 : cl ((clean_text t).take defaultModel.max_chars) with
      | none =>
        rw [predict_grade_fallback _ _ _ h1 h2]
        exact ⟨wordGrade_nonneg _ _, wordGrade_le_100 _ _⟩
      | some p =>
        obtain ⟨label, s⟩ := p
        obtain ⟨hs0, hs1⟩ := hcl label s h2
        rw [predict_grade_sentiment _ _ _ _ _ h1 h2]
        obtain ⟨hm0, hm1⟩ := map_sentiment_range label s hs0 hs1
        have hw0 := wordGrade_nonneg defaultModel (splitWords (clean_text t)).length
        have hw1 := wordGrade_le_100 defaultModel (splitWords (clean_text t)).length
        constructor <;> linarith
  · intro label s hwords h2
    obtain ⟨hs0, hs1⟩ := hcl label s h2
    refine ⟨predict_grade_sentiment _ _ _ _ _ (by omega) h2,
      map_sentiment_range label s hs0 hs1,
      wordGrade_nonneg _ _, wordGrade_le_100 _ _⟩

theorem predict_grade_in_range_witness :
    (∀ label s, (fun _ => none : Classifier) ((clean_text ['h','i']).take defaultModel.max_chars) = some (label, s) →
      0 ≤ s ∧ s ≤ 1) ∧
    (0 ≤ predict_grade defaultModel (fun _ => none) ['h','i'] ∧
      predict_grade defaultModel (fun _ => none) ['h','i'] ≤ 100) :=
  by
  constructor
  · intro label s h
    cases h
  · exact (predict_grade_in_range (fun _ => none) ['h','i']
      (by intro label s h; cases h)).1
/-- C2: a text whose normalized form has fewer than 20 whitespace-separated
words gets grade exactly 0 from the default model, whatever the classifier
does — the classifier is not consulted. -/
theorem short_submission_rejected (t : List Char)
    (h : (splitWords (clean_text t)).length < 20) :
    ∀ cl : Classifier, predict_grade defaultModel cl t = 0 :=
  fun cl => predict_grade_short defaultModel cl t h

theorem short_submission_rejected_witness :
    (splitWords (clean_text ['h','i'])).length < 20 ∧
    predict_grade defaultModel (fun _ => none) ['h','i'] = 0 :=
  ⟨by decide, short_submission_rejected ['h','i'] (by decide) (fun _ => none)⟩

/-- C3: with the default full-mark word count of 500, the word-count
component of `predict_grade` is `min(100, words/500*100)`, and for a
normalized text of at least 500 words it is exactly 100. -/
theorem word_component_saturates (t : List Char)
    (h : 500 ≤ (splitWords (clean_text t)).length) :
    wordGrade defaultModel (splitWords (clean_text t)).length = 100 ∧
    (∀ n : ℕ, wordGrade defaultModel n = min 100 ((n : ℚ) / 500 * 100)) := by
  constructor
  · have h500 : (500 : ℚ) ≤ ((splitWords (clean_text t)).length : ℚ) := by
      exact_mod_cast h
    unfold wordGrade
    rw [min_eq_left]
    show (100 : ℚ) ≤ ((splitWords (clean_text t)).length : ℚ) / ((defaultModel.full_mark_word_count : ℕ) : ℚ) * 100
    have : ((defaultModel.full_mark_word_count : ℕ) : ℚ) = 500 := by norm_num [defaultModel]
    rw [this]
    rw [div_mul_eq_mul_div, le_div_iff₀ (by norm_num : (0:ℚ) < 500)]
    nlinarith
  · intro n
    norm_num [wordGrade, defaultModel]

set_option maxRecDepth 100000 in
theorem word_component_saturates_witness :
    500 ≤ (splitWords (clean_text words500)).length ∧
    wordGrade defaultModel (splitWords (clean_text words500)).length = 100 :=
  ⟨by decide, (word_component_saturates words500 (by decide)).1⟩
/-- C4: `_map_sentiment_to_grade` returns `score*100` for a label that
upper-cases to POSITIVE and `(1-score)*50` for one that upper-cases to
NEGATIVE; for a confidence in [0,1] the negative component is at most 50. -/
theorem sentiment_mapping_formula (label : List Char) (s : ℚ) :
    (label.map pyUpper = "POSITIVE".toList →
      map_sentiment_to_grade label s = s * 100) ∧
    (label.map pyUpper = "NEGATIVE".toList →
      map_sentiment_to_grade label s = (1 - s) * 50) ∧
    (label.map pyUpper = "NEGATIVE".toList → 0 ≤ s → s ≤ 1 →
      map_sentiment_to_grade label s ≤ 50) := by
  refine ⟨fun h => ?_, fun h => ?_, fun h h0 h1 => ?_⟩
  · rw [map_sentiment_to_grade, if_pos h]
  · rw [map_sentiment_to_grade, if_neg (by rw [h]; decide)]
  · rw [map_sentiment_to_grade, if_neg (by rw [h]; decide)]
    nlinarith

theorem sentiment_mapping_formula_witness :
    ("negative".toList.map pyUpper = "NEGATIVE".toList ∧
      map_sentiment_to_grade "negative".toList (1/2) = (1 - 1/2) * 50) ∧
    ("Positive".toList.map pyUpper = "POSITIVE".toList ∧
      map_sentiment_to_grade "Positive".toList (1/2) = 1/2 * 100) :=
  ⟨⟨by decide, (sentiment_mapping_formula "negative".toList (1/2)).2.1 (by decide)⟩,
    ⟨by decide, (sentiment_mapping_formula "Positive".toList (1/2)).1 (by decide)⟩⟩

/-- C5: feedback is a pure function of the grade through the fixed
thresholds 80 and 50 — each of the three strings is returned exactly on
its grade band — and the module-level `generate_feedback` ignores its text
argument. -/
theorem feedback_thresholds (g : ℚ) :
    (GradingModel.generate_feedback g =
        "Excellent work! Your essay is well-structured and insightful." ↔ 80 ≤ g) ∧
    (GradingModel.generate_feedback g =
        "Good job. Consider adding more examples and details to support your ideas." ↔
      50 ≤ g ∧ g < 80) ∧
    (GradingModel.generate_feedback g =
        "Your work needs improvement. Focus on developing your arguments more clearly." ↔
      g < 50) ∧
    (∀ t₁ t₂ : List Char, generate_feedback g t₁ = generate_feedback g t₂) := by
  have d12 : ("Excellent work! Your essay is well-structured and insightful." : String) ≠
      "Good job. Consider adding more examples and details to support your ideas." := by decide
  have d13 : ("Excellent work! Your essay is well-structured and insightful." : String) ≠
      "Your work needs improvement. Focus on developing your arguments more clearly." := by decide
  have d23 : ("Good job. Consider adding more examples and details to support your ideas." : String) ≠
      "Your work needs improvement. Focus on developing your arguments more clearly." := by decide
  refine ⟨?_, ?_, ?_, fun t₁ t₂ => rfl⟩ <;>
    unfold GradingModel.generate_feedback <;> split_ifs with h1 h2
  · simp only [true_iff, h1]
  · exact ⟨fun hx => absurd hx.symm d12, fun hx => absurd hx (by linarith)⟩
  · exact ⟨fun hx => absurd hx.symm d13, fun hx => absurd hx (by linarith)⟩
  · exact ⟨fun hx => absurd hx d12, fun hx => absurd hx.2 (by linarith)⟩
  · exact ⟨fun _ => ⟨h2, not_le.mp h1⟩, fun _ => rfl⟩
  · exact ⟨fun hx => absurd hx.symm d23, fun hx => absurd hx.1 h2⟩
  · exact ⟨fun hx => absurd hx d13, fun hx => absurd hx (by linarith)⟩
  · exact ⟨fun hx => absurd hx d23, fun hx => absurd hx (by linarith)⟩
  · exact ⟨fun _ => not_le.mp h2, fun _ => rfl⟩
/-- C6: when the word-count gate passes and the classifier raises, the
grade is exactly the word-count component — no sentiment contribution,
no propagated exception. -/
theorem classifier_failure_fallback (cl : Classifier) (t : List Char)
    (h1 : 20 ≤ (splitWords (clean_text t)).length)
    (h2 : cl ((clean_text t).take defaultModel.max_chars) = none) :
    predict_grade defaultModel cl t =
      wordGrade defaultModel (splitWords (clean_text t)).length :=
  predict_grade_fallback defaultModel cl t (by exact not_lt.mpr h1) h2

set_option maxRecDepth 40000 in
theorem classifier_failure_fallback_witness :
    20 ≤ (splitWords (clean_text words20)).length ∧
    predict_grade defaultModel (fun _ => none) words20 =
      wordGrade defaultModel (splitWords (clean_text words20)).length :=
  ⟨by decide, classifier_failure_fallback (fun _ => none) words20 (by decide) rfl⟩

theorem runTrainingCalls_id (m : GradingModel)
    (calls : List (List TrainingExample × ℕ)) : runTrainingCalls m calls = m := by
  induction calls with
  | nil => rfl
  | cons c cs ih => exact ih

/-- C7: `train_on_examples` returns exactly the fixed status dict echoing
`epochs`, leaves the model unchanged, and hence no sequence of training
calls influences any later `predict_grade` result. -/
theorem training_is_noop (m : GradingModel) (examples : List TrainingExample)
    (epochs : ℕ) (calls : List (List TrainingExample × ℕ)) (cl : Classifier)
    (t : List Char) :
    m.train_on_examples examples epochs =
      ({ epochs := epochs, status := "Training simulated; no changes applied." }, m) ∧
    runTrainingCalls m calls = m ∧
    predict_grade (runTrainingCalls m calls) cl t = predict_grade m cl t :=
  ⟨rfl, runTrainingCalls_id m calls, by rw [runTrainingCalls_id]⟩

/-- C10 fails on the code: stripping non-ASCII characters happens after
whitespace collapsing, so on the text "é a" one application yields " a"
(a leading space reappears) and a second application yields "a". -/
theorem clean_text_not_idempotent :
    clean_text (clean_text ['é', ' ', 'a']) ≠ clean_text ['é', ' ', 'a'] := by
  decide
/-- C8: each `ClassroomService` method is fail-soft: it yields either the
parsed payload (on `ok`, the collection under the response key, defaulted
to `[]`) or an error-message string — and never a propagated exception —
except that `post_grade` on an `HttpError` containing
`"ProjectPermissionDenied"` yields the simulated-success dict carrying the
grade and submission id. -/
theorem classroom_fail_soft :
    (∀ (α : Type) (o : ApiOutcome (Option (List α))),
      (∃ cs, ClassroomService.list_courses o = .payload cs) ∨
      (∃ msg, ClassroomService.list_courses o = .message msg)) ∧
    (∀ (α : Type) (response : Option (List α)),
      ClassroomService.list_courses (.ok response) = .payload (response.getD [])) ∧
    (∀ (α : Type) (cid : String) (o : ApiOutcome (Option (List α))),
      (∃ l, ClassroomService.fetch_assignments cid o = .payload l) ∨
      (∃ msg, ClassroomService.fetch_assignments cid o = .message msg)) ∧
    (∀ (α : Type) (cid : String) (cwid : Option String)
        (o : ApiOutcome (Option (List α))),
      (∃ l, ClassroomService.get_student_submissions cid cwid o = .payload l) ∨
      (∃ msg, ClassroomService.get_student_submissions cid cwid o = .message msg)) ∧
    (∀ (α : Type) (cid : String) (cwid sid : Option String) (g : ℚ)
        (o : ApiOutcome α),
      (∃ r, ClassroomService.post_grade cid cwid sid g o = .payload r) ∨
      (∃ msg, ClassroomService.post_grade cid cwid sid g o = .message msg) ∨
      ClassroomService.post_grade cid cwid sid g o = .simulated g sid) ∧
    (∀ (α : Type) (cid : String) (cwid sid : Option String) (g : ℚ) (err : String),
      strContains err "ProjectPermissionDenied" = true →
      ClassroomService.post_grade (α := α) cid cwid sid g (.httpError err) =
        .simulated g sid) ∧
    (∀ (α : Type) (cid : String) (cwid sid : Option String) (g : ℚ) (err : String),
      strContains err "ProjectPermissionDenied" = false →
      ClassroomService.post_grade (α := α) cid cwid sid g (.httpError err) =
        .message ("Error posting grade: " ++ err)) := by
  refine ⟨fun α o => ?_, fun α response => rfl, fun α cid o => ?_,
    fun α cid cwid o => ?_, fun α cid cwid sid g o => ?_,
    fun α cid cwid sid g err h => ?_, fun α cid cwid sid g err h => ?_⟩
  · cases o with
    | ok r => exact Or.inl ⟨r.getD [], rfl⟩
    | httpError e => exact Or.inr ⟨_, rfl⟩
    | failure e => exact Or.inr ⟨_, rfl⟩
  · cases o with
    | ok r => exact Or.inl ⟨r.getD [], rfl⟩
    | httpError e => exact Or.inr ⟨_, rfl⟩
    | failure e => exact Or.inr ⟨_, rfl⟩
  · cases o with
    | ok r => exact Or.inl ⟨r.getD [], rfl⟩
    | httpError e => exact Or.inr ⟨_, rfl⟩
    | failure e => exact Or.inr ⟨_, rfl⟩
  · cases o with
    | ok r => exact Or.inl ⟨r, rfl⟩
    | httpError e =>
      by_cases hc : strContains e "ProjectPermissionDenied"
      · exact Or.inr (Or.inr (by simp [ClassroomService.post_grade, hc]))
      · exact Or.inr (Or.inl ⟨"Error posting grade: " ++ e,
          by simp [ClassroomService.post_grade, hc]⟩)
    | failure e => exact Or.inr (Or.inl ⟨_, rfl⟩)
  · simp [ClassroomService.post_grade, h]
  · simp [ClassroomService.post_grade, h]

theorem classroom_fail_soft_witness :
    strContains "HttpError 403: ProjectPermissionDenied" "ProjectPermissionDenied" = true ∧
    ClassroomService.post_grade (α := Unit) "c1" (some "w1") (some "s1") 85
      (.httpError "HttpError 403: ProjectPermissionDenied") = .simulated 85 (some "s1") :=
  ⟨by decide,
    classroom_fail_soft.2.2.2.2.2.1 Unit "c1" (some "w1") (some "s1") 85
      "HttpError 403: ProjectPermissionDenied" (by decide)⟩
/-- C9 fails on the code: in `/upload-assignment` the uploaded file is
saved to the uploads directory before the `student_id` check, so a request
with a file but no `student_id` gets its 400 response only after a
persistent state change (the recorded `fileSave` event). -/
theorem upload_saves_file_before_validation :
    upload_assignment ⟨some ⟨"essay.pdf", "essay bytes"⟩, none⟩
        (fun s => s) (fun _ => "extracted text") (fun _ => none) none =
      ([Event.fileSave "uploads/essay.pdf"], .err 400 "student_id is required") ∧
    ([Event.fileSave "uploads/essay.pdf"] : List Event) ≠ [] := by
  constructor
  · rfl
  · decide

/-- C9 amended: missing `course_id` on `/fetch-assignments` and
`/grade-all` and a missing or empty file part on `/upload-assignment`
return a 4xx response with no side effect performed; but a missing
`student_id` on `/upload-assignment` is rejected only after the uploaded
file has been saved — the 400 response then carries exactly the one
`fileSave` effect, still with no remote call and no database write. -/
theorem validation_before_effects_amended :
    (∀ (c : Option String) (cl : Classifier) o, pyTruthy c = false →
      fetch_and_grade c cl o =
        ([], .badRequest "course_id query parameter is required")) ∧
    (∀ (α : Type) (c : Option String) (cl : Classifier) fo so po,
      pyTruthy c = false →
      grade_all (α := α) c cl fo so po = ([], .badRequest "course_id is required")) ∧
    (∀ (sid : Option String) secure extract (cl : Classifier) db,
      upload_assignment ⟨none, sid⟩ secure extract cl db =
        ([], .err 400 "No file part in the request")) ∧
    (∀ (sid : Option String) (content : String) secure extract (cl : Classifier) db,
      upload_assignment ⟨some ⟨"", content⟩, sid⟩ secure extract cl db =
        ([], .err 400 "No selected file")) ∧
    (∀ (f : FileUpload) (sid : Option String) secure extract (cl : Classifier) db,
      f.filename ≠ "" → pyTruthy sid = false →
      upload_assignment ⟨some f, sid⟩ secure extract cl db =
        ([Event.fileSave ("uploads/" ++ secure f.filename)],
          .err 400 "student_id is required")) := by
  refine ⟨fun c cl o h => ?_, fun α c cl fo so po h => ?_,
    fun sid secure extract cl db => rfl,
    fun sid content secure extract cl db => ?_,
    fun f sid secure extract cl db hf hsid => ?_⟩
  · simp [fetch_and_grade, h]
  · simp [grade_all, h]
  · simp [upload_assignment]
  · simp only [upload_assignment]
    rw [if_neg (by simp [hf]), if_pos (by simp [hsid])]

theorem validation_before_effects_amended_witness :
    pyTruthy (none : Option String) = false ∧
    fetch_and_grade none (fun _ => none) (.failure "unused") =
      ([], .badRequest "course_id query parameter is required") :=
  ⟨rfl, validation_before_effects_amended.1 none (fun _ => none)
    (.failure "unused") rfl⟩


theorem notUpper_pyLower (c : Char) :
    ¬(65 ≤ (pyLower c).toNat ∧ (pyLower c).toNat ≤ 90) := by
  rw [toNat_pyLower]
  split_ifs with h <;> omega

theorem pyLower_eq_self (c : Char) (h : ¬(65 ≤ c.toNat ∧ c.toNat ≤ 90)) :
    pyLower c = c := by
  unfold pyLower
  rw [if_neg h]

theorem pyLower_pyLower (c : Char) : pyLower (pyLower c) = pyLower c :=
  pyLower_eq_self _ (notUpper_pyLower c)

theorem isPySpace_pyLower (c : Char) : isPySpace (pyLower c) = isPySpace c := by
  by_cases h : 65 ≤ c.toNat ∧ c.toNat ≤ 90
  · have h1 : (pyLower c).toNat = c.toNat + 32 := by rw [toNat_pyLower, if_pos h]
    have e1 : isPySpace (pyLower c) = false := by
      simp only [isPySpace, h1]
      simp only [Bool.or_eq_false_iff, Bool.and_eq_false_iff, beq_eq_false_iff_ne,
        ne_eq, decide_eq_false_iff_not, not_le]
      omega
    have e2 : isPySpace c = false := by
      simp only [isPySpace]
      simp only [Bool.or_eq_false_iff, Bool.and_eq_false_iff, beq_eq_false_iff_ne,
        ne_eq, decide_eq_false_iff_not, not_le]
      omega
    rw [e1, e2]
  · rw [pyLower_eq_self c h]

theorem toNat_pyLower_le (c : Char) (h : c.toNat ≤ 127) : (pyLower c).toNat ≤ 127 := by
  rw [toNat_pyLower]
  split_ifs <;> omega

theorem mem_collapseAux (l : List Char) :
    ∀ (b : Bool) (c : Char), c ∈ collapseAux b l → c = ' ' ∨ c ∈ l := by
  induction l with
  | nil => intro b c h; cases h
  | cons d rest ih =>
    intro b c h
    by_cases hs : isPySpace d
    · cases b with
      | true =>
        simp only [collapseAux, hs, if_pos, if_true] at h
        rcases ih true c h with h' | h'
        · exact Or.inl h'
        · exact Or.inr (List.mem_cons_of_mem d h')
      | false =>
        simp only [collapseAux, hs, if_pos, if_false] at h
        rcases List.mem_cons.mp h with h' | h'
        · exact Or.inl h'
        · rcases ih true c h' with h'' | h''
          · exact Or.inl h''
          · exact Or.inr (List.mem_cons_of_mem d h'')
    · simp only [collapseAux, hs, if_neg, ite_false] at h
      rcases List.mem_cons.mp h with h' | h'
      · exact Or.inr (h' ▸ List.mem_cons_self d rest)
      · rcases ih false c h' with h'' | h''
        · exact Or.inl h''
        · exact Or.inr (List.mem_cons_of_mem d h'')

theorem spacedOK_collapseAux (l : List Char) :
    ∀ b : Bool, spacedOK b (collapseAux b l) = true := by
  induction l with
  | nil => intro b; rfl
  | cons d rest ih =>
    intro b
    by_cases hs : isPySpace d
    · cases b with
      | true => simpa only [collapseAux, hs, if_true, if_pos] using ih true
      | false =>
        simp only [collapseAux, hs, if_true, if_neg Bool.false_ne_true]
        have : isPySpace ' ' = true := by decide
        simp only [spacedOK, this, if_pos, Bool.not_false, Bool.true_and, beq_self_eq_true]
        exact ih true
    · simp only [collapseAux, hs, ite_false]
      simp only [spacedOK, hs, ite_false]
      exact ih false
theorem collapseAux_eq_self (l : List Char) :
    ∀ b : Bool, spacedOK b l = true → collapseAux b l = l := by
  induction l with
  | nil => intro b _; rfl
  | cons d rest ih =>
    intro b h
    by_cases hs : isPySpace d
    · cases b with
      | true => simp [spacedOK, hs] at h
      | false =>
        simp only [spacedOK, hs, if_true, Bool.not_false, Bool.true_and,
          Bool.and_eq_true, beq_iff_eq] at h
        simp only [collapseAux, hs, if_true, if_neg Bool.false_ne_true]
        rw [ih true h.2, h.1]
    · simp only [spacedOK, hs, Bool.false_eq_true, ite_false] at h
      simp only [collapseAux, hs, Bool.false_eq_true, ite_false]
      rw [ih false h]

theorem spacedOK_append (l : List Char) :
    ∀ (t : List Char) (b : Bool), spacedOK b (l ++ t) = true → spacedOK b l = true := by
  induction l with
  | nil => intro t b _; rfl
  | cons d rest ih =>
    intro t b h
    by_cases hs : isPySpace d
    · simp only [List.cons_append, spacedOK, hs, if_true, Bool.and_eq_true] at h ⊢
      exact ⟨h.1, ih t true h.2⟩
    · simp only [List.cons_append, spacedOK, hs, Bool.false_eq_true, ite_false] at h ⊢
      exact ih t false h

theorem spacedOK_dropWhile (l : List Char) :
    ∀ b : Bool, spacedOK b l = true →
      ∀ b', spacedOK b' (l.dropWhile isPySpace) = true := by
  induction l with
  | nil => intro b _ b'; rfl
  | cons d rest ih =>
    intro b h b'
    by_cases hs : isPySpace d
    · rw [List.dropWhile_cons_of_pos hs]
      simp only [spacedOK, hs, if_true, Bool.and_eq_true] at h
      exact ih true h.2 b'
    · rw [List.dropWhile_cons_of_neg hs]
      simp only [spacedOK, hs, Bool.false_eq_true, ite_false] at h ⊢
      exact h

theorem dropWhile_head_not (l : List Char) (c : Char)
    (h : (l.dropWhile isPySpace).head? = some c) : isPySpace c = false := by
  induction l with
  | nil => cases h
  | cons d rest ih =>
    by_cases hs : isPySpace d
    · rw [List.dropWhile_cons_of_pos hs] at h
      exact ih h
    · rw [List.dropWhile_cons_of_neg hs] at h
      cases h
      exact Bool.not_eq_true _ ▸ (by simpa using hs)

theorem spacedOK_of_isPrefix (l r : List Char) (b : Bool)
    (h : spacedOK b l = true) (hp : r <+: l) : spacedOK b r = true := by
  obtain ⟨t, rfl⟩ := hp
  exact spacedOK_append r t b h
theorem stripWS_isPrefixOf_dropWhile (l : List Char) :
    stripWS l <+: l.dropWhile isPySpace := by
  unfold stripWS
  apply List.reverse_suffix.mp
  rw [List.reverse_reverse]
  exact List.dropWhile_suffix isPySpace

theorem head_of_isPrefixOf {α : Type} (r l : List α) (c : α)
    (hp : r <+: l) (h : r.head? = some c) : l.head? = some c := by
  obtain ⟨t, rfl⟩ := hp
  cases r with
  | nil => cases h
  | cons d r' => simpa using h

theorem stripWS_head_not (l : List Char) (c : Char)
    (h : (stripWS l).head? = some c) : isPySpace c = false :=
  dropWhile_head_not l c
    (head_of_isPrefixOf (stripWS l) (l.dropWhile isPySpace) c
      (stripWS_isPrefixOf_dropWhile l) h)

theorem stripWS_getLast_not (l : List Char) (c : Char)
    (h : (stripWS l).getLast? = some c) : isPySpace c = false := by
  rw [List.getLast?_eq_head?_reverse] at h
  unfold stripWS at h
  rw [List.reverse_reverse] at h
  exact dropWhile_head_not _ c h

theorem spacedOK_stripWS (l : List Char) (h : spacedOK false l = true) :
    spacedOK false (stripWS l) = true :=
  spacedOK_of_isPrefix (l.dropWhile isPySpace) (stripWS l) false
    (spacedOK_dropWhile l false h false) (stripWS_isPrefixOf_dropWhile l)

theorem mem_stripWS (l : List Char) (c : Char) (h : c ∈ stripWS l) : c ∈ l := by
  unfold stripWS at h
  rw [List.mem_reverse] at h
  have h1 := (List.dropWhile_sublist isPySpace).subset h
  rw [List.mem_reverse] at h1
  exact (List.dropWhile_sublist isPySpace).subset h1

theorem stripWS_eq_self (l : List Char)
    (hh : ∀ c, l.head? = some c → isPySpace c = false)
    (hl : ∀ c, l.getLast? = some c → isPySpace c = false) : stripWS l = l := by
  have h1 : l.dropWhile isPySpace = l := by
    cases l with
    | nil => rfl
    | cons d r => exact List.dropWhile_cons_of_neg (by simp [hh d rfl])
  have h2 : l.reverse.dropWhile isPySpace = l.reverse := by
    cases hr : l.reverse with
    | nil => rfl
    | cons d r =>
      have hd : l.getLast? = some d := by
        rw [List.getLast?_eq_head?_reverse, hr]
        rfl
      exact List.dropWhile_cons_of_neg (by simp [hl d hd])
  unfold stripWS
  rw [h1, h2, List.reverse_reverse]
theorem asciiFilter_eq_self (l : List Char) (h : ∀ c ∈ l, c.toNat ≤ 127) :
    asciiFilter l = l :=
  List.filter_eq_self.mpr (fun a ha => by simpa using h a ha)

theorem clean_text_eq_self (l : List Char)
    (hlow : ∀ c ∈ l, pyLower c = c)
    (hsp : spacedOK false l = true)
    (hh : ∀ c, l.head? = some c → isPySpace c = false)
    (hlast : ∀ c, l.getLast? = some c → isPySpace c = false)
    (ha : ∀ c ∈ l, c.toNat ≤ 127) : clean_text l = l := by
  have hm : l.map pyLower = l := by
    rw [List.map_congr_left (g := id) (fun a haa => hlow a haa), List.map_id]
  unfold clean_text collapseWS
  rw [hm, collapseAux_eq_self l false hsp, stripWS_eq_self l hh hlast,
    asciiFilter_eq_self l ha]

/-- C10 amended: on texts made of ASCII characters only, `clean_text` is
idempotent — its output is lowercase ASCII with whitespace fully collapsed
and stripped, so a second application changes nothing.  (On non-ASCII
input idempotence fails, see the counterexample.) -/
theorem clean_text_idempotent_on_ascii (t : List Char)
    (h : ∀ c ∈ t, c.toNat ≤ 127) :
    clean_text (clean_text t) = clean_text t := by
  have hXsp : spacedOK false (collapseWS (t.map pyLower)) = true :=
    spacedOK_collapseAux (t.map pyLower) false
  have hXlow : ∀ c ∈ collapseWS (t.map pyLower), pyLower c = c := by
    intro c hc
    rcases mem_collapseAux (t.map pyLower) false c hc with h' | h'
    · rw [h']
      decide
    · obtain ⟨a, _, rfl⟩ := List.mem_map.mp h'
      exact pyLower_pyLower a
  have hXascii : ∀ c ∈ collapseWS (t.map pyLower), c.toNat ≤ 127 := by
    intro c hc
    rcases mem_collapseAux (t.map pyLower) false c hc with h' | h'
    · rw [h']
      decide
    · obtain ⟨a, ha, rfl⟩ := List.mem_map.mp h'
      exact toNat_pyLower_le a (h a ha)
  set r := stripWS (collapseWS (t.map pyLower)) with hr
  have hrascii : ∀ c ∈ r, c.toNat ≤ 127 := fun c hc =>
    hXascii c (mem_stripWS _ c hc)
  have hclean : clean_text t = r := asciiFilter_eq_self r hrascii
  rw [hclean]
  exact clean_text_eq_self r
    (fun c hc => hXlow c (mem_stripWS _ c hc))
    (spacedOK_stripWS _ hXsp)
    (fun c hc => stripWS_head_not _ c hc)
    (fun c hc => stripWS_getLast_not _ c hc)
    hrascii

theorem clean_text_idempotent_on_ascii_witness :
    (∀ c ∈ "  Mixed   CASE text ".toList, c.toNat ≤ 127) ∧
    clean_text (clean_text "  Mixed   CASE text ".toList) =
      clean_text "  Mixed   CASE text ".toList :=
  ⟨by decide, clean_text_idempotent_on_ascii "  Mixed   CASE text ".toList (by decide)⟩

end Qubit
